import Mathlib

/-!
Shallow embedding of the OSM dashboard logic
(src/web/dashboard/main_dashboard.py) and proofs about the claims of the
natural-language specification.  Machine data is modelled with Int / Nat /
Rat; pandas tables are modelled as Lean lists of records; pandas groupby is
modelled as sorting the distinct group keys and aggregating per key.
-/

/-- One publication observation (one row of the raw dataframe).  The
affiliation_country cell is a tuple of country names or null; the loader
(app.py) normalises every cell to a non-empty tuple, using the sentinel
tuple containing the single string "None" for records without countries,
but main_dashboard.py defends against null cells, hence the Option. -/
structure Record where
  year : Int
  journal : String
  affiliation_country : Option (List String)
  fund_pmc_institute : String
  is_data_pred : Bool
  is_code_pred : Bool
deriving DecidableEq, Repr

/-- Helper for pdUnique: first-occurrence deduplication with the set of
already seen values as accumulator (structural recursion, so that closed
instances reduce inside the kernel). -/
def pdUniqueAux {a : Type} [DecidableEq a] (seen : List a) : List a -> List a
  | [] => []
  | x :: l => if x ∈ seen then pdUniqueAux seen l else x :: pdUniqueAux (x :: seen) l

/-- Pandas Series.unique / Python dict-key order: keeps the first occurrence
of every value, in order of first appearance. -/
def pdUnique {a : Type} [DecidableEq a] (l : List a) : List a :=
  pdUniqueAux [] l

theorem mem_pdUniqueAux {a : Type} [DecidableEq a] {x : a} :
    ∀ {seen l : List a}, x ∈ pdUniqueAux seen l ↔ x ∈ l ∧ x ∉ seen := by
  intro seen l
  induction l generalizing seen with
  | nil => simp [pdUniqueAux]
  | cons b t ih =>
    rw [pdUniqueAux]
    by_cases hb : b ∈ seen
    · rw [if_pos hb, ih]
      constructor
      · rintro ⟨hxt, hxs⟩
        exact ⟨List.mem_cons_of_mem _ hxt, hxs⟩
      · rintro ⟨hxc, hxs⟩
        rcases List.mem_cons.1 hxc with rfl | hxt
        · exact absurd hb hxs
        · exact ⟨hxt, hxs⟩
    · rw [if_neg hb]
      by_cases hxb : x = b
      · subst hxb
        simp [hb]
      · simp only [List.mem_cons, hxb, false_or]
        rw [ih]
        simp [List.mem_cons, hxb]

theorem mem_pdUnique {a : Type} [DecidableEq a] {x : a} {l : List a} :
    x ∈ pdUnique l ↔ x ∈ l := by
  rw [pdUnique, mem_pdUniqueAux]
  simp

theorem nodup_pdUniqueAux {a : Type} [DecidableEq a] :
    ∀ (seen l : List a), (pdUniqueAux seen l).Nodup := by
  intro seen l
  induction l generalizing seen with
  | nil => simp [pdUniqueAux]
  | cons b t ih =>
    rw [pdUniqueAux]
    by_cases hb : b ∈ seen
    · rw [if_pos hb]
      exact ih seen
    · rw [if_neg hb]
      refine List.nodup_cons.2 ⟨?_, ih (b :: seen)⟩
      intro hmem
      exact (mem_pdUniqueAux.1 hmem).2 (List.mem_cons_self _ _)

theorem nodup_pdUnique {a : Type} [DecidableEq a] (l : List a) :
    (pdUnique l).Nodup :=
  nodup_pdUniqueAux [] l

theorem pdUniqueAux_eq_self {a : Type} [DecidableEq a] :
    ∀ {seen l : List a}, l.Nodup → (∀ x ∈ l, x ∉ seen) → pdUniqueAux seen l = l := by
  intro seen l
  induction l generalizing seen with
  | nil => intro _ _; rfl
  | cons b t ih =>
    intro hnd hdis
    rw [pdUniqueAux, if_neg (hdis b (List.mem_cons_self _ _))]
    congr 1
    refine ih (List.nodup_cons.1 hnd).2 ?_
    intro x hx
    intro hxs
    rcases List.mem_cons.1 hxs with rfl | hseen
    · exact (List.nodup_cons.1 hnd).1 hx
    · exact hdis x (List.mem_cons_of_mem _ hx) hseen

theorem pdUnique_eq_self {a : Type} [DecidableEq a] {l : List a}
    (h : l.Nodup) : pdUnique l = l :=
  pdUniqueAux_eq_self h (by simp)

/-! ## Aggregation engine (filtered_grouped_data, main_dashboard.py lines 228-269) -/

/-- Journal criterion of filtered_grouped_data.  In the source the guard
around this query is a comparison between an int and a list
(len(self.filter_journal) != self.param.filter_journal.objects), which is
always true, so the membership query is appended unconditionally. -/
def journal_criterion (selected : List String) (r : Record) : Bool :=
  decide (r.journal ∈ selected)

/-- Publication-date criterion: two inclusive bounds, appended only when
filter_pubdate is initialised. -/
def pubdate_criterion (fp : Option (Int × Int)) (r : Record) : Bool :=
  match fp with
  | none => true
  | some (lo, hi) => decide (lo ≤ r.year) && decide (r.year ≤ hi)

/-- Country criterion (the row cell is a tuple of countries, or null): a null
cell matches iff the string "None" is selected, otherwise the record matches
iff some country of the cell is selected. -/
def country_criterion (selected : List String) (r : Record) : Bool :=
  match r.affiliation_country with
  | none => decide ("None" ∈ selected)
  | some cs => cs.any (fun c => decide (c ∈ selected))

/-- The filtering step of filtered_grouped_data.  The country criterion is
applied only when the number of selected countries differs from the number of
country options (that is how the source decides the filter is active). -/
def filtered_records (data : List Record) (fj : List String)
    (fp : Option (Int × Int)) (fc : List String) (cobjs : List String) :
    List Record :=
  let step1 := data.filter (fun r => journal_criterion fj r && pubdate_criterion fp r)
  if fc.length ≠ cobjs.length then step1.filter (country_criterion fc) else step1

/-- Group key of a record: always the year, plus the splitting column when
the splitting variable is not "None".  The journal and institute columns hold
single strings (wrapped in a singleton list here), the country column holds
the country tuple. -/
def groupKeyOf (split : String) (r : Record) : Int × List String :=
  (r.year,
    if split = "None" then []
    else if split = "journal" then [r.journal]
    else if split = "affiliation_country" then
      (match r.affiliation_country with
       | none => []
       | some cs => cs)
    else [r.fund_pmc_institute])

/-- The dims_aggregations table of the source. -/
def dims_aggregations : List (String × List String) :=
  [("is_data_pred", ["percent", "count_true"]),
   ("is_code_pred", ["percent", "count_true"])]

/-- Boolean column lookup for the two metric fields. -/
def field_of (r : Record) (field : String) : Bool :=
  if field = "is_data_pred" then r.is_data_pred else r.is_code_pred

/-- The aggregation formulas: percent is the boolean mean scaled by 100,
count_true counts the true entries. -/
def agg_formula (agg : String) (vals : List Bool) : ℚ :=
  if agg = "percent" then ((vals.count true : ℚ) / (vals.length : ℚ)) * 100
  else (vals.count true : ℚ)

/-- One aggregated row body: the named aggregation columns in the order the
source builds its aggretations dict. -/
def agg_row (recs : List Record) : List (String × ℚ) :=
  dims_aggregations.flatMap (fun fa =>
    fa.2.map (fun agg =>
      (agg ++ "_" ++ fa.1, agg_formula agg (recs.map (fun r => field_of r fa.1)))))

/-- One row of the aggregated table: group key plus named metric values. -/
abbrev AggRow := (Int × List String) × List (String × ℚ)

/-- The aggregation engine: filter, then group by year (plus the splitting
column when splitting), one row per distinct group present in the filtered
records, groups sorted by year (pandas groupby sorts group keys; equal-year
groups keep first-appearance order here, an order no property below depends
on). -/
def filtered_grouped_data (data : List Record) (fj : List String)
    (fp : Option (Int × Int)) (fc : List String) (cobjs : List String)
    (split : String) : List AggRow :=
  let recs := filtered_records data fj fp fc cobjs
  let keys := List.insertionSort (fun a b => a.1 ≤ b.1)
    (pdUnique (recs.map (groupKeyOf split)))
  keys.map (fun k => (k, agg_row (recs.filter (fun r => decide (groupKeyOf split r = k)))))

/-- The journal universe: the distinct journals of the snapshot, in first
appearance order (pandas Series.unique). -/
def journal_objects (data : List Record) : List String :=
  pdUnique (data.map (fun r => r.journal))

/-! ## Derived-state resolver (main_dashboard.py lines 116-226) -/

/-- One counting step of get_countries_with_count: Python dict update,
keeping insertion order, incrementing in place when the key exists. -/
def bump (l : List (String × Nat)) (k : String) : List (String × Nat) :=
  if l.any (fun p => p.1 = k) then
    l.map (fun p => if p.1 = k then (p.1, p.2 + 1) else p)
  else l ++ [(k, 1)]

/-- get_countries_with_count (lines 174-183): occurrence count of every
country across the exploded per-record country tuples; a null cell counts
once for the sentinel "None". -/
def get_countries_with_count (data : List Record) : List (String × Nat) :=
  data.foldl (fun acc r =>
    match r.affiliation_country with
    | none => bump acc "None"
    | some cs => cs.foldl bump acc) []

/-- Error outcomes of the splitting-variable transition.  indexError is the
Python IndexError raised by an out-of-range fixed list index.
insufficientData is modelled from the spec: the spec postulates a typed
InsufficientDataError raised by a pre-check; no such type or pre-check exists
in the source, the constructor exists only to state that comparison. -/
inductive DashErr where
  | indexError
  | insufficientData
deriving DecidableEq, Repr

/-- The candidate countries of the country-splitting default: occurrence
count strictly greater than 10, in dict insertion order (lines 200-205). -/
def qualifying_countries (data : List Record) : List (String × Nat) :=
  (get_countries_with_count data).filter (fun p => decide (10 < p.2))

/-- The candidate counts sorted in descending order (line 207-209's
sorted(..., reverse=True); Python sorted is stable). -/
def sorted_counts_desc (data : List Record) : List Nat :=
  List.insertionSort (fun a b => b ≤ a) ((qualifying_countries data).map (fun p => p.2))

/-- The fixed-index lookup of line 209: element number 10 (0-based) of the
descending count list, absent when fewer than 11 candidates qualify. -/
def top_10_min (data : List Record) : Option Nat :=
  (sorted_counts_desc data)[10]?

/-- The default country selection computed when the splitting variable
changes to affiliation_country (lines 198-215): every qualifying candidate
whose count reaches the fixed-index threshold; a Python IndexError when the
index lookup is out of range. -/
def country_default_selection (data : List Record) : Except DashErr (List String) :=
  match top_10_min data with
  | none => .error .indexError
  | some m => .ok (((qualifying_countries data).filter (fun p => decide (m ≤ p.2))).map (fun p => p.1))

/-- Journal counts in the shape of pandas Series.value_counts: one entry per
distinct journal, sorted by count descending.  The order of entries with
equal counts is not part of the pandas contract; it is modelled here as
first-appearance order (stable sort) and no confirmed claim below depends on
that tie order. -/
def journal_value_counts (data : List Record) : List (String × Nat) :=
  List.insertionSort (fun a b => b.2 ≤ a.2)
    ((pdUnique (data.map (fun r => r.journal))).map
      (fun j => (j, (data.map (fun r => r.journal)).count j)))

/-- The journal-splitting default (lines 191-193): the first 10 index entries
of value_counts. -/
def top10_journals (data : List Record) : List String :=
  ((journal_value_counts data).map (fun p => p.1)).take 10

/-- The derived dashboard state: parameter option lists and current values,
as recomputed by the two transition rules.  Notifications are transient UI
events, not state, and are returned separately. -/
structure DashState where
  metrics_objects : List String
  metrics : String
  splitting_var_objects : List String
  splitting_var : String
  pubdate_bounds : Option Int × Int
  pubdate_default : Option (Int × Int)
  filter_pubdate : Option (Int × Int)
  filter_journal_objects : List String
  filter_journal : List String
  filter_country_objects : List String
  filter_affiliation_country : List String
deriving DecidableEq, Repr

/-- The notification emitted when the splitting variable becomes "None". -/
def notif_none_msg : String := "No more splitting. Filters reset to default"

/-- did_change_splitting_var (lines 185-226): the journal if/else pair, the
country if/else pair, then the "None" notification override.  The returned
Option String is the notification (none models the Python NameError branch
where notif_msg is never assigned). -/
def did_change_splitting_var (data : List Record) (s : DashState) :
    Except DashErr (DashState × Option String) :=
  let fj := if s.splitting_var = "journal" then top10_journals data
            else s.filter_journal_objects
  let notif1 : Option String :=
    if s.splitting_var = "journal" then
      some "Splitting by journal. Top 10 journals selected by default."
    else none
  if s.splitting_var = "affiliation_country" then
    match country_default_selection data with
    | .error e => .error e
    | .ok sel =>
      .ok ({ s with filter_journal := fj, filter_affiliation_country := sel },
           some "Splitting by affiliation country. Top 10 countries selected by default.")
  else
    .ok ({ s with filter_journal := fj,
                  filter_affiliation_country := s.filter_country_objects },
         if s.splitting_var = "None" then some notif_none_msg else notif1)

/-- The metrics_titles table of the source. -/
def metrics_titles : List (String × String) :=
  [("percent_is_data_pred", "Data Sharing (%)"),
   ("percent_is_code_pred", "Code Sharing (%)"),
   ("count_true_is_data_pred", "Data Sharing"),
   ("count_true_is_code_pred", "Code Sharing"),
   ("mean_score", "Mean Score"),
   ("mean_eigenfactor_score", "Mean Eigenfactor Score")]

/-- The inverse table metrics_by_title (titles are distinct). -/
def metrics_by_title : List (String × String) :=
  metrics_titles.map (fun p => (p.2, p.1))

/-- The metric fields configured for the RTransparent source. -/
def rtransparent_metric_fields : List String := ["is_data_pred", "is_code_pred"]

/-- The splitting variables configured for the RTransparent source. -/
def rtransparent_splitting_vars : List String :=
  ["None", "journal", "affiliation_country", "fund_pmc_institute"]

/-- The metric catalog built on an extraction-tool change (lines 128-133):
for every configured field, for every aggregation of that field, the display
title. -/
def new_metrics_list : List String :=
  rtransparent_metric_fields.flatMap (fun m =>
    ((dims_aggregations.lookup m).getD []).map (fun agg =>
      (metrics_titles.lookup (agg ++ "_" ++ m)).getD ""))

/-- Minimum year of the snapshot (pandas Series.min; absent when empty). -/
def yearMin (data : List Record) : Option Int := (data.map (fun r => r.year)).min?

/-- Maximum year of the snapshot. -/
def yearMax (data : List Record) : Option Int := (data.map (fun r => r.year)).max?

/-- The country universe (lines 161-168): the counted countries sorted by
occurrence count descending; Python sorted with reverse=True is stable, so
equal counts keep dict insertion order. -/
def country_objects_of (data : List Record) : List String :=
  (List.insertionSort (fun a b => b.2 ≤ a.2) (get_countries_with_count data)).map
    (fun p => p.1)

/-- The state update performed by did_change_extraction_tool before it
assigns the splitting variable (lines 116-168): metric catalog and default,
splitting-variable options, date-range bounds and defaults, journal and
country universes.  It reads only the dataset and the current calendar
year. -/
def update_derived (data : List Record) (currentYear : Int) (s : DashState) : DashState :=
  let defaultRange : Option (Int × Int) :=
    match yearMin data, yearMax data with
    | some a, some b => some (a, b)
    | _, _ => none
  { s with
    metrics_objects := new_metrics_list,
    metrics := new_metrics_list.headD "",
    splitting_var_objects := rtransparent_splitting_vars,
    pubdate_bounds := (yearMin data, currentYear),
    pubdate_default := defaultRange,
    filter_pubdate := defaultRange,
    filter_journal_objects := journal_objects data,
    filter_country_objects := country_objects_of data }

/-- did_change_extraction_tool (lines 116-172): recompute the derived
parameters, then assign the first configured splitting variable; the panel
watcher fires did_change_splitting_var only when that assignment changes the
value. -/
def did_change_extraction_tool (data : List Record) (currentYear : Int)
    (s : DashState) : Except DashErr DashState :=
  let s1 := update_derived data currentYear s
  let newSplit := rtransparent_splitting_vars.headD ""
  if s1.splitting_var = newSplit then .ok s1
  else
    match did_change_splitting_var data { s1 with splitting_var := newSplit } with
    | .error e => .error e
    | .ok (s2, _) => .ok s2

/-! ## Chart series builder (updated_echart_plot, lines 271-344) -/

/-- Failure outcomes of the chart builder: the early return when
filter_pubdate is still uninitialised (the pane stays empty), and the Python
AttributeError of the fund_pmc_institute branch, which reads an attribute the
class never defines (line 310). -/
inductive ChartFail where
  | uninitialized
  | missingAttr
deriving DecidableEq, Repr

/-- Code-point comparison of character lists (the string ordering Python
sorted uses). -/
def chars_le : List Char -> List Char -> Bool
  | [], _ => true
  | _ :: _, [] => false
  | c :: cs, d :: ds =>
    if c.toNat < d.toNat then true
    else if d.toNat < c.toNat then false
    else chars_le cs ds

/-- Lexicographic string comparison by code point (Python string order). -/
def pystr_le (x y : String) : Bool := chars_le x.data y.data

/-- Metric column of an aggregated row. -/
def metric_of_row (raw_metric : String) (row : AggRow) : ℚ :=
  (row.2.lookup raw_metric).getD 0

/-- Mean of a list of rationals (pandas mean). -/
def rat_mean (l : List ℚ) : ℚ := l.sum / (l.length : ℚ)

/-- The per-item row predicate of the split branch: country membership for
the country split, cell equality otherwise. -/
def split_match (split : String) (key_vals : List String) (item : String) : Bool :=
  if split = "affiliation_country" then decide (item ∈ key_vals)
  else decide (key_vals = [item])

/-- One series of the split branch (lines 319-339): the aggregated rows of
one selected item, regrouped by year with the mean of the metric; only the
years present among those rows contribute data points. -/
def series_for_item (raw_metric : String) (split : String) (df : List AggRow)
    (item : String) : List ℚ :=
  let sub := df.filter (fun row => split_match split row.1.2 item)
  let yrs := List.insertionSort (fun a b => a ≤ b) (pdUnique (sub.map (fun row => row.1.1)))
  yrs.map (fun y =>
    rat_mean ((sub.filter (fun row => decide (row.1.1 = y))).map (metric_of_row raw_metric)))

/-- updated_echart_plot reduced to its data content: the x-axis year list and
the named series data vectors.  The x-axis is the unique years of the
aggregated table; the "None" branch emits a single series over all rows; a
split emits one series per selected item in ascending item order. -/
def build_chart (data : List Record) (s : DashState) :
    Except ChartFail (List Int × List (String × List ℚ)) :=
  match s.filter_pubdate with
  | none => .error .uninitialized
  | some _ =>
    let df := filtered_grouped_data data s.filter_journal s.filter_pubdate
      s.filter_affiliation_country s.filter_country_objects s.splitting_var
    let raw_metric := (metrics_by_title.lookup s.metrics).getD ""
    let xA := pdUnique (df.map (fun row => row.1.1))
    if s.splitting_var = "None" then
      .ok (xA, [(s.metrics, df.map (metric_of_row raw_metric))])
    else if s.splitting_var = "fund_pmc_institute" then .error .missingAttr
    else
      let items := List.insertionSort (fun a b => pystr_le a b = true)
        (if s.splitting_var = "affiliation_country" then s.filter_affiliation_country
         else s.filter_journal)
      .ok (xA, items.map (fun it => (it, series_for_item raw_metric s.splitting_var df it)))

/-! ## Selection-title formatter (new_picker_title, lines 456-469) -/

/-- new_picker_title: three branches on the selected count and the option
count (the Python f-strings ignore the spaces inside the braces). -/
def new_picker_title (entity : String) (value_count : Nat) (options_count : Nat) : String :=
  if value_count = options_count then
    "All " ++ entity ++ " (" ++ toString value_count ++ ")"
  else if value_count = 0 then
    "No " ++ entity ++ " (0 out of " ++ toString options_count ++ ")"
  else
    toString value_count ++ " " ++ entity ++ " out of " ++ toString options_count

/-! ## Sort-relation instances and concrete datasets used by the witnesses -/

deriving instance DecidableEq for Except

instance : IsTotal (Int × List String) (fun a b => a.1 ≤ b.1) :=
  ⟨fun a b => le_total a.1 b.1⟩

instance : IsTrans (Int × List String) (fun a b => a.1 ≤ b.1) :=
  ⟨fun _ _ _ h h2 => le_trans h h2⟩

instance : IsTotal Nat (fun a b => b ≤ a) := ⟨fun a b => le_total b a⟩

instance : IsTrans Nat (fun a b => b ≤ a) := ⟨fun _ _ _ h h2 => le_trans h2 h⟩

/-- Record builder for concrete test data. -/
def mkRec (y : Int) (j : String) (cs : List String) : Record :=
  ⟨y, j, some cs, "", true, true⟩

/-- A one-record snapshot. -/
def recW : Record := mkRec 2020 "J1" ["US"]

/-- A one-record dataset. -/
def dataW : List Record := [recW]

/-- An uninitialised dashboard state. -/
def s0 : DashState := ⟨[], "", [], "", (none, 0), none, none, [], [], [], []⟩

/-- The derived state the extraction-tool transition produces from dataW with
calendar year 2024. -/
def stateW : DashState :=
  ⟨new_metrics_list, "Data Sharing (%)", rtransparent_splitting_vars, "None",
   (some 2020, 2024), some (2020, 2020), some (2020, 2020),
   ["J1"], ["J1"], ["US"], ["US"]⟩

/-- Snapshot with ten countries of count 12 and one of count 11: ties at the
10th rank plus one more candidate over the count threshold. -/
def dataC2 : List Record :=
  (List.replicate 11 (mkRec 2020 "J" ["A","B","C","D","E","F","G","H","I","J2","K"])) ++
  [mkRec 2020 "J" ["A","B","C","D","E","F","G","H","I","J2"]]

/-- Snapshot with a single country above the count threshold. -/
def dataC4 : List Record := List.replicate 12 (mkRec 2020 "J" ["A"])

/-- Snapshot where journal A appears only in 2020 while journal B appears in
2020 and 2021. -/
def dataC3 : List Record :=
  [mkRec 2020 "A" ["US"], mkRec 2020 "B" ["US"], mkRec 2021 "B" ["US"]]

/-- Dashboard state splitting by journal with both journals selected. -/
def stateC3 : DashState :=
  ⟨new_metrics_list, "Data Sharing (%)", rtransparent_splitting_vars, "journal",
   (some 2020, 2024), some (2020, 2021), some (2020, 2021),
   ["A","B"], ["A","B"], ["US"], ["US"]⟩

/-! ## C10: selection-title formatter -/

/-- C10: new_picker_title has exactly the three branches all / none /
partial, evaluated in that order, with the exact output strings of the claim,
and the three cited examples evaluate as stated. -/
theorem claim10_title_branches (entity : String) (k n : Nat) :
    (k = n → new_picker_title entity k n = "All " ++ entity ++ " (" ++ toString n ++ ")") ∧
    (k = 0 → 0 < n → new_picker_title entity k n = "No " ++ entity ++ " (0 out of " ++ toString n ++ ")") ∧
    (k ≠ n → k ≠ 0 → new_picker_title entity k n = toString k ++ " " ++ entity ++ " out of " ++ toString n) ∧
    new_picker_title "journals" 3 10 = "3 journals out of 10" ∧
    new_picker_title "journals" 10 10 = "All journals (10)" ∧
    new_picker_title "journals" 0 10 = "No journals (0 out of 10)" := by
  refine ⟨?_, ?_, ?_, by decide, by decide, by decide⟩
  · intro h; subst h; simp [new_picker_title]
  · intro hk hn; subst hk
    rw [new_picker_title, if_neg (by omega), if_pos rfl]
  · intro hkn hk0
    rw [new_picker_title, if_neg hkn, if_neg hk0]

/-- C10 witness: the partial branch at the cited example. -/
theorem claim10_witness : new_picker_title "journals" 3 10 = "3 journals out of 10" :=
  (claim10_title_branches "journals" 3 10).2.2.1 (by decide) (by decide)

/-! ## C1: journal criterion of the aggregation engine -/

/-- C1: for a record of the dataset, the journal criterion passes iff the
selected set equals the journal universe or the record journal is selected;
in particular selecting the whole universe restricts nothing.  (In the source
the criterion is a plain membership test that is applied unconditionally, and
for records of the dataset membership in the full universe always holds.) -/
theorem claim1_journal_criterion_iff (data : List Record) (selected : List String)
    (r : Record) (hr : r ∈ data) :
    (journal_criterion selected r = true ↔
      ((∀ j, j ∈ selected ↔ j ∈ journal_objects data) ∨ r.journal ∈ selected)) ∧
    ((∀ j, j ∈ selected ↔ j ∈ journal_objects data) →
      journal_criterion selected r = true) := by
  have hju : r.journal ∈ journal_objects data := by
    rw [journal_objects, mem_pdUnique]
    exact List.mem_map_of_mem _ hr
  have hback : (∀ j, j ∈ selected ↔ j ∈ journal_objects data) →
      journal_criterion selected r = true := by
    intro hall
    simp only [journal_criterion, decide_eq_true_eq]
    exact (hall _).2 hju
  refine ⟨⟨?_, ?_⟩, hback⟩
  · intro h
    right
    simpa [journal_criterion] using h
  · rintro (hall | hmem)
    · exact hback hall
    · simpa [journal_criterion] using hmem

/-- C1 witness: the single-record dataset with its whole journal universe
selected. -/
theorem claim1_witness :
    (journal_criterion ["J1"] recW = true ↔
      ((∀ j, j ∈ ["J1"] ↔ j ∈ journal_objects dataW) ∨ recW.journal ∈ ["J1"])) ∧
    ((∀ j, j ∈ ["J1"] ↔ j ∈ journal_objects dataW) →
      journal_criterion ["J1"] recW = true) :=
  claim1_journal_criterion_iff dataW ["J1"] recW (by decide)

/-! ## C8: splitting-variable transition to "None" -/

/-- Helper: when the splitting variable is "None", the transition takes both
else branches (full universes) and the "None" notification. -/
theorem split_none_result (data : List Record) (s : DashState)
    (h : s.splitting_var = "None") :
    did_change_splitting_var data s =
      .ok ({ s with filter_journal := s.filter_journal_objects,
                    filter_affiliation_country := s.filter_country_objects },
           some notif_none_msg) := by
  simp [did_change_splitting_var, h]

/-- C8: on the transition to splitting variable "None" (in particular when
switching away from journal), the journal selection resets to the full
journal universe, the country selection resets to the full country universe,
and exactly the notification "No more splitting. Filters reset to default" is
emitted. -/
theorem claim8_split_to_none (data : List Record) (s : DashState)
    (h : s.splitting_var = "None") :
    did_change_splitting_var data s =
      .ok ({ s with filter_journal := s.filter_journal_objects,
                    filter_affiliation_country := s.filter_country_objects },
           some "No more splitting. Filters reset to default") :=
  split_none_result data s h

/-- C8 witness: the resolved one-record state. -/
theorem claim8_witness :
    did_change_splitting_var dataW stateW =
      .ok ({ stateW with filter_journal := stateW.filter_journal_objects,
                         filter_affiliation_country := stateW.filter_country_objects },
           some "No more splitting. Filters reset to default") :=
  claim8_split_to_none dataW stateW (by decide)

/-! ## C6: exactness of the grouped output -/

/-- C6: the aggregated table has exactly one row per distinct group key
present in the filtered records: its key column is duplicate-free, a key
appears iff some filtered record carries it (so no zero-record ghost rows and
no missing groups), and an empty filtered set yields an empty table.  The
hypothesis restricts to snapshots whose country cells are non-null, which the
loader guarantees; pandas would drop null group keys. -/
theorem claim6_exact_groups (data : List Record) (fj : List String)
    (fp : Option (Int × Int)) (fc cobjs : List String) (split : String)
    (hnorm : ∀ r ∈ data, r.affiliation_country ≠ none) :
    ((filtered_grouped_data data fj fp fc cobjs split).map Prod.fst).Nodup ∧
    (∀ k, k ∈ (filtered_grouped_data data fj fp fc cobjs split).map Prod.fst ↔
      ∃ r ∈ filtered_records data fj fp fc cobjs, groupKeyOf split r = k) ∧
    (filtered_records data fj fp fc cobjs = [] →
      filtered_grouped_data data fj fp fc cobjs split = []) := by
  have hfst : ∀ (f : (Int × List String) → List (String × ℚ))
      (ks : List (Int × List String)),
      (ks.map (fun k => (k, f k))).map Prod.fst = ks := by
    intro f ks
    induction ks with
    | nil => rfl
    | cons a t ih => simp only [List.map_cons, ih]
  have hkeys : (filtered_grouped_data data fj fp fc cobjs split).map Prod.fst =
      List.insertionSort (fun a b => a.1 ≤ b.1)
        (pdUnique ((filtered_records data fj fp fc cobjs).map (groupKeyOf split))) := by
    simp only [filtered_grouped_data]
    exact hfst _ _
  refine ⟨?_, ?_, ?_⟩
  · rw [hkeys]
    exact ((List.perm_insertionSort _ _).nodup_iff).2 (nodup_pdUnique _)
  · intro k
    rw [hkeys, List.mem_insertionSort, mem_pdUnique, List.mem_map]
  · intro h
    simp [filtered_grouped_data, h, pdUnique]

/-- C6 witness: the one-record snapshot with every filter at its default. -/
theorem claim6_witness :
    ((filtered_grouped_data dataW ["J1"] (some (2020, 2020)) ["US"] ["US"] "None").map Prod.fst).Nodup ∧
    (∀ k, k ∈ (filtered_grouped_data dataW ["J1"] (some (2020, 2020)) ["US"] ["US"] "None").map Prod.fst ↔
      ∃ r ∈ filtered_records dataW ["J1"] (some (2020, 2020)) ["US"] ["US"], groupKeyOf "None" r = k) ∧
    (filtered_records dataW ["J1"] (some (2020, 2020)) ["US"] ["US"] = [] →
      filtered_grouped_data dataW ["J1"] (some (2020, 2020)) ["US"] ["US"] "None" = []) :=
  claim6_exact_groups dataW ["J1"] (some (2020, 2020)) ["US"] ["US"] "None" (by decide)

/-! ## C5: no validation in the aggregation engine -/

/-- C5 counterexample: with the inverted date range (2021, 2020) and the
out-of-universe journal "NotAJournal" selected, the engine returns the empty
table instead of failing; the source defines no InvalidFilterError and
performs no validation at all, so the claimed error can never be raised. -/
theorem claim5_cex :
    filtered_grouped_data dataW ["J1", "NotAJournal"] (some (2021, 2020))
      ["US"] ["US"] "None" = [] := by decide

/-- C5 (amended): the engine performs no validation and always returns a
plain table: an inverted date range yields the empty table, and an
out-of-universe journal name in the selection is inert (the membership
criterion ignores it for every record of the dataset). -/
theorem claim5_no_validation (data : List Record) (fj : List String)
    (fc cobjs : List String) (lo hi : Int) (split : String) (hinv : hi < lo) :
    filtered_grouped_data data fj (some (lo, hi)) fc cobjs split = [] ∧
    (∀ x sel r, r ∈ data → x ∉ journal_objects data →
      journal_criterion (x :: sel) r = journal_criterion sel r) := by
  constructor
  · have h1 : data.filter
        (fun r => journal_criterion fj r && pubdate_criterion (some (lo, hi)) r) = [] := by
      rw [List.filter_eq_nil_iff]
      intro r hr
      simp only [pubdate_criterion, Bool.and_eq_true, decide_eq_true_eq, not_and]
      intro _ h2
      omega
    have hrec : filtered_records data fj (some (lo, hi)) fc cobjs = [] := by
      simp [filtered_records, h1]
    simp [filtered_grouped_data, hrec, pdUnique]
  · intro x sel r hr hx
    have hne : r.journal ≠ x := by
      intro he
      exact hx (he ▸ (by rw [journal_objects, mem_pdUnique]; exact List.mem_map_of_mem _ hr))
    simp [journal_criterion, List.mem_cons, hne]

/-- C5 witness: the inverted range on the one-record snapshot. -/
theorem claim5_witness :
    filtered_grouped_data dataW ["J1"] (some (2021, 2020)) ["US"] ["US"] "None" = [] ∧
    (∀ x sel r, r ∈ dataW → x ∉ journal_objects dataW →
      journal_criterion (x :: sel) r = journal_criterion sel r) :=
  claim5_no_validation dataW ["J1"] ["US"] ["US"] 2021 2020 "None" (by decide)

/-! ## C2: country default selection threshold -/

/-- Modelled from the spec wording of the claim, for comparison with the
source: the threshold as the 10th-largest count among the qualifying
candidates (index 9 of the descending count list). -/
def spec_top_10_min (data : List Record) : Option Nat :=
  (sorted_counts_desc data)[9]?

/-- Modelled from the spec wording of the claim, for comparison with the
source: select every qualifying candidate whose count reaches the
10th-largest count. -/
def spec_country_default (data : List Record) : Option (List String) :=
  match spec_top_10_min data with
  | none => none
  | some m =>
    some (((qualifying_countries data).filter (fun p => decide (m ≤ p.2))).map (fun p => p.1))

set_option maxRecDepth 8000 in
/-- C2 counterexample: on dataC2 (ten countries of count 12, one of count
11), the source threshold is the element at index 10 of the descending count
list, namely 11, so the code selects all eleven countries, while the claimed
10th-largest threshold (12) selects only ten: the claim misstates the
threshold rank. -/
theorem claim2_cex :
    country_default_selection dataC2 =
      .ok ["A","B","C","D","E","F","G","H","I","J2","K"] ∧
    spec_country_default dataC2 =
      some ["A","B","C","D","E","F","G","H","I","J2"] ∧
    (["A","B","C","D","E","F","G","H","I","J2","K"] : List String) ≠
      ["A","B","C","D","E","F","G","H","I","J2"] := by
  refine ⟨by decide, by decide, by decide⟩

/-- C2 (amended): the threshold top_10_min is the element at index 10 of the
descending count list (the 11th-largest count, not the 10th-largest), the
selection is exactly every qualifying candidate with count at or above that
threshold, and consequently every candidate tied at the 10th-rank count is
included in the default selection. -/
theorem claim2_country_default (data : List Record) (sel : List String)
    (h : country_default_selection data = .ok sel) :
    (∃ m, (sorted_counts_desc data)[10]? = some m ∧
      sel = ((qualifying_countries data).filter (fun p => decide (m ≤ p.2))).map
        (fun p => p.1)) ∧
    (∀ c n m9, (c, n) ∈ qualifying_countries data →
      (sorted_counts_desc data)[9]? = some m9 → m9 ≤ n → c ∈ sel) := by
  unfold country_default_selection top_10_min at h
  cases hm : (sorted_counts_desc data)[10]? with
  | none => rw [hm] at h; exact absurd h (by simp)
  | some m =>
    rw [hm] at h
    simp only [Except.ok.injEq] at h
    subst h
    refine ⟨⟨m, rfl, rfl⟩, ?_⟩
    intro c n m9 hmem h9 h9n
    obtain ⟨h10lt, h10e⟩ := List.getElem?_eq_some_iff.1 hm
    obtain ⟨h9lt, h9e⟩ := List.getElem?_eq_some_iff.1 h9
    have hsorted : List.Sorted (fun a b => b ≤ a) (sorted_counts_desc data) :=
      List.sorted_insertionSort _ _
    have hm9 : m ≤ m9 := by
      have := hsorted.rel_get_of_lt
        (a := (⟨9, h9lt⟩ : Fin (sorted_counts_desc data).length))
        (b := (⟨10, h10lt⟩ : Fin (sorted_counts_desc data).length))
        (by exact Fin.mk_lt_mk.2 (by omega))
      simpa [List.get_eq_getElem, h10e, h9e] using this
    refine List.mem_map.2 ⟨(c, n), List.mem_filter.2 ⟨hmem, ?_⟩, rfl⟩
    simp only [decide_eq_true_eq]
    omega

set_option maxRecDepth 8000 in
/-- C2 witness: the amended characterisation evaluated on dataC2. -/
theorem claim2_witness :
    (∃ m, (sorted_counts_desc dataC2)[10]? = some m ∧
      ["A","B","C","D","E","F","G","H","I","J2","K"] =
        ((qualifying_countries dataC2).filter (fun p => decide (m ≤ p.2))).map
          (fun p => p.1)) ∧
    (∀ c n m9, (c, n) ∈ qualifying_countries dataC2 →
      (sorted_counts_desc dataC2)[9]? = some m9 → m9 ≤ n →
      c ∈ ["A","B","C","D","E","F","G","H","I","J2","K"]) :=
  claim2_country_default dataC2 ["A","B","C","D","E","F","G","H","I","J2","K"] (by decide)

/-! ## C4: failure when fewer than 11 countries qualify -/

set_option maxRecDepth 8000 in
/-- C4 counterexample: on dataC4 only one country exceeds the count
threshold, and the transition fails with the IndexError of the fixed-index
lookup itself, not with the typed InsufficientDataError raised by a pre-check
that the claim describes: no such pre-check or error type exists in the
source. -/
theorem claim4_cex :
    country_default_selection dataC4 = .error DashErr.indexError ∧
    (Except.error DashErr.indexError : Except DashErr (List String)) ≠
      Except.error DashErr.insufficientData := by
  refine ⟨by decide, by decide⟩

/-- C4 (amended): when fewer than 11 countries have count above 10, the
country-splitting transition fails loudly, but through the out-of-range
fixed-index lookup itself (a Python IndexError), with no pre-check and no
InsufficientDataError; it never proceeds with an out-of-range default. -/
theorem claim4_insufficient_candidates (data : List Record)
    (h : (qualifying_countries data).length < 11) :
    country_default_selection data = .error DashErr.indexError := by
  have hlen : (sorted_counts_desc data).length = (qualifying_countries data).length := by
    simp [sorted_counts_desc]
  have hnone : (sorted_counts_desc data)[10]? = none := by
    apply List.getElem?_eq_none
    omega
  simp [country_default_selection, top_10_min, hnone]

set_option maxRecDepth 8000 in
/-- C4 witness: the single-qualifying-country snapshot. -/
theorem claim4_witness :
    country_default_selection dataC4 = .error DashErr.indexError :=
  claim4_insufficient_candidates dataC4 (by decide)

/-! ## C3: chart axis and series alignment -/

/-- Helper: the key column of the aggregated table is the sorted
deduplicated key list of the filtered records. -/
theorem grouped_map_fst (data : List Record) (fj : List String)
    (fp : Option (Int × Int)) (fc cobjs : List String) (split : String) :
    (filtered_grouped_data data fj fp fc cobjs split).map Prod.fst =
      List.insertionSort (fun a b => a.1 ≤ b.1)
        (pdUnique ((filtered_records data fj fp fc cobjs).map (groupKeyOf split))) := by
  have hfst : ∀ (f : (Int × List String) → List (String × ℚ))
      (ks : List (Int × List String)),
      (ks.map (fun k => (k, f k))).map Prod.fst = ks := by
    intro f ks
    induction ks with
    | nil => rfl
    | cons a t ih => simp only [List.map_cons, ih]
  simp only [filtered_grouped_data]
  exact hfst _ _

/-- C3 (amended, the part that holds): when the splitting variable is
"None", the x-axis is exactly the year column of the aggregated table, which
is sorted ascending and duplicate-free, and the single series is the metric
column of the same table, aligned to the x-axis index-for-index and of equal
length.  (The claim fails for a non-"None" split: see the counterexample.) -/
theorem claim3_axis_alignment (data : List Record) (s : DashState)
    (xA : List Int) (sers : List (String × List ℚ))
    (hsplit : s.splitting_var = "None")
    (h : build_chart data s = .ok (xA, sers)) :
    xA = (filtered_grouped_data data s.filter_journal s.filter_pubdate
      s.filter_affiliation_country s.filter_country_objects s.splitting_var).map
      (fun row => row.1.1) ∧
    List.Sorted (fun a b : Int => a ≤ b) xA ∧ xA.Nodup ∧
    sers = [(s.metrics,
      (filtered_grouped_data data s.filter_journal s.filter_pubdate
        s.filter_affiliation_country s.filter_country_objects s.splitting_var).map
        (metric_of_row ((metrics_by_title.lookup s.metrics).getD "")))] ∧
    (∀ ser ∈ sers, ser.2.length = xA.length) := by
  rw [hsplit]
  cases hfp : s.filter_pubdate with
  | none => rw [build_chart, hfp] at h; cases h
  | some p =>
    rw [build_chart, hfp] at h
    rw [hsplit] at h
    simp only [reduceIte] at h
    rw [Except.ok.injEq, Prod.mk.injEq] at h
    obtain ⟨hxa, hsers⟩ := h
    have hkeys := grouped_map_fst data s.filter_journal (some p)
      s.filter_affiliation_country s.filter_country_objects "None"
    have hnodupkeys : ((filtered_grouped_data data s.filter_journal (some p)
        s.filter_affiliation_country s.filter_country_objects "None").map Prod.fst).Nodup := by
      rw [hkeys]
      exact ((List.perm_insertionSort _ _).nodup_iff).2 (nodup_pdUnique _)
    have hsnd : ∀ k ∈ (filtered_grouped_data data s.filter_journal (some p)
        s.filter_affiliation_country s.filter_country_objects "None").map Prod.fst,
        k.2 = ([] : List String) := by
      intro k hk
      rw [hkeys, List.mem_insertionSort, mem_pdUnique, List.mem_map] at hk
      obtain ⟨r, _, rfl⟩ := hk
      simp [groupKeyOf]
    have hyears : (filtered_grouped_data data s.filter_journal (some p)
        s.filter_affiliation_country s.filter_country_objects "None").map
          (fun row => row.1.1) =
        ((filtered_grouped_data data s.filter_journal (some p)
          s.filter_affiliation_country s.filter_country_objects "None").map
          Prod.fst).map (fun k => k.1) := by
      rw [List.map_map]
      rfl
    have hnodupyears : ((filtered_grouped_data data s.filter_journal (some p)
        s.filter_affiliation_country s.filter_country_objects "None").map
          (fun row => row.1.1)).Nodup := by
      rw [hyears]
      refine List.Nodup.map_on ?_ hnodupkeys
      intro x hx y hy hxy
      exact Prod.ext hxy ((hsnd x hx).trans (hsnd y hy).symm)
    have hsorted_keys : List.Sorted (fun a b => a.1 ≤ b.1)
        ((filtered_grouped_data data s.filter_journal (some p)
          s.filter_affiliation_country s.filter_country_objects "None").map Prod.fst) := by
      rw [hkeys]
      exact List.sorted_insertionSort _ _
    have hsorted_years : List.Sorted (fun a b : Int => a ≤ b)
        ((filtered_grouped_data data s.filter_journal (some p)
          s.filter_affiliation_country s.filter_country_objects "None").map
          (fun row => row.1.1)) := by
      rw [hyears]
      exact List.Pairwise.map _ (fun a b hab => hab) hsorted_keys
    have hxa2 : xA = (filtered_grouped_data data s.filter_journal (some p)
        s.filter_affiliation_country s.filter_country_objects "None").map
        (fun row => row.1.1) := by
      rw [← hxa, pdUnique_eq_self hnodupyears]
    refine ⟨hxa2, ?_, ?_, hsers.symm, ?_⟩
    · rw [hxa2]; exact hsorted_years
    · rw [hxa2]; exact hnodupyears
    · intro ser hser
      rw [← hsers] at hser
      rcases List.mem_singleton.1 hser with rfl
      simp [hxa2]

/-- The resolved one-record state with the count metric selected. -/
def stateW3 : DashState :=
  { stateW with metrics := "Data Sharing" }

set_option maxRecDepth 8000 in
/-- C3 witness: on the one-record snapshot with no splitting, the single
series spans the whole one-year domain index-for-index. -/
theorem claim3_witness :
    ([(2020 : Int)] = (filtered_grouped_data dataW stateW3.filter_journal stateW3.filter_pubdate
        stateW3.filter_affiliation_country stateW3.filter_country_objects stateW3.splitting_var).map
        (fun row => row.1.1)) ∧
    List.Sorted (fun a b : Int => a ≤ b) [(2020 : Int)] ∧
    ([(2020 : Int)] : List Int).Nodup ∧
    ([(("Data Sharing" : String), ([1] : List ℚ))] = [(stateW3.metrics,
      (filtered_grouped_data dataW stateW3.filter_journal stateW3.filter_pubdate
        stateW3.filter_affiliation_country stateW3.filter_country_objects stateW3.splitting_var).map
        (metric_of_row ((metrics_by_title.lookup stateW3.metrics).getD "")))]) ∧
    (∀ ser ∈ [(("Data Sharing" : String), ([1] : List ℚ))],
      ser.2.length = ([(2020 : Int)] : List Int).length) :=
  claim3_axis_alignment dataW stateW3 [2020] [("Data Sharing", [1])] rfl (by decide)

set_option maxRecDepth 8000 in
/-- C3 counterexample: splitting by journal on dataC3 with journals A and B
selected, the x-axis domain is [2020, 2021] (length 2) but the series of
journal A carries a single data point: the year 2021, present in the domain
and absent from the rows of journal A, is dropped instead of represented as a
gap, so that series has length 1 and the index alignment the claim states
fails for it. -/
theorem claim3_cex :
    (build_chart dataC3 stateC3).toOption.map
        (fun pr => (pr.1, pr.2.map (fun ser => (ser.1, ser.2.length)))) =
      some ([2020, 2021], [("A", 1), ("B", 2)]) ∧ (1 : Nat) ≠ 2 := by
  refine ⟨by decide, by decide⟩

/-! ## C9: idempotence of the extraction-tool transition -/

/-- Helper: update_derived never touches the splitting variable. -/
theorem update_derived_splitting (data : List Record) (y : Int) (t : DashState) :
    (update_derived data y t).splitting_var = t.splitting_var := rfl

/-- Helper: recomputing the derived parameters twice from the same snapshot
is the same as recomputing them once. -/
theorem update_derived_idem (data : List Record) (y : Int) (t : DashState) :
    update_derived data y (update_derived data y t) = update_derived data y t := rfl

/-- Helper: the unfolded shape of did_change_extraction_tool (the first
configured splitting variable is "None"). -/
theorem dcet_eq (data : List Record) (y : Int) (s : DashState) :
    did_change_extraction_tool data y s =
      if (update_derived data y s).splitting_var = "None" then
        .ok (update_derived data y s)
      else
        match did_change_splitting_var data
            { update_derived data y s with splitting_var := "None" } with
        | .error e => .error e
        | .ok (s2, _) => .ok s2 := rfl

/-- C9: re-firing the extraction-tool transition on an unchanged snapshot
and calendar year reproduces the same derived state: catalog, default
metric, splitting options, date bounds and defaults, journal and country
universes, splitting variable and default filter selections. -/
theorem claim9_idempotent (data : List Record) (y : Int) (s s2 : DashState)
    (h : did_change_extraction_tool data y s = .ok s2) :
    did_change_extraction_tool data y s2 = .ok s2 := by
  rw [dcet_eq] at h ⊢
  by_cases hc : (update_derived data y s).splitting_var = "None"
  · rw [if_pos hc] at h
    injection h with h2
    subst h2
    rw [update_derived_idem, if_pos hc]
  · rw [if_neg hc] at h
    have hnone : ({ update_derived data y s with splitting_var := "None" } :
        DashState).splitting_var = "None" := rfl
    rw [split_none_result data _ hnone] at h
    simp only [] at h
    injection h with h2
    subst h2
    rfl

set_option maxRecDepth 8000 in
/-- C9 witness: re-firing the transition on the resolved one-record state. -/
theorem claim9_witness :
    did_change_extraction_tool dataW 2024 stateW = .ok stateW :=
  claim9_idempotent dataW 2024 s0 stateW (by decide)
